import Mathlib

/-!
Verification of the `fileinfo` command of osmium-tool against its
natural-language specification.  The definitions below are a shallow
embedding of `src/command_fileinfo.cpp`: the streaming aggregator
`InfoHandler`, the JSON and single-value output views, and the `--get`
key validation of `CommandFileinfo::setup`.  Parts of the behaviour that
live in external libraries (libosmium, boost) are modelled from the
specification and are marked as such in their doc comments.
-/

namespace Fileinfo

/-- OSM item types as in the external library enum `osmium::item_type`.
Modelled from the spec: the numeric enum values (undefined 0, node 1,
way 2, relation 3, changeset 5) realize the fixed total order
"node < way < relation" that `InfoHandler::osm_object` exploits when it
compares `last_type > object.type()`. -/
inductive ItemType
  | undefined
  | node
  | way
  | relation
  | changeset
deriving DecidableEq

/-- Numeric value of an item type, as used by the `<`/`>` comparisons on
the C++ enum. -/
def ItemType.val : ItemType → Nat
  | ItemType.undefined => 0
  | ItemType.node => 1
  | ItemType.way => 2
  | ItemType.relation => 3
  | ItemType.changeset => 5

/-- The kinds of OSM objects (entity variants that are not changesets). -/
inductive ObjKind
  | node
  | way
  | relation
deriving DecidableEq

/-- The item type of an object kind. -/
def ObjKind.toItemType : ObjKind → ItemType
  | ObjKind.node => ItemType.node
  | ObjKind.way => ItemType.way
  | ObjKind.relation => ItemType.relation

/-- Modelled from the spec: a node location is an "optional (lon, lat)"
pair; `none` is the undefined location.  Coordinates are the integer
fixed-point values stored by the external library. -/
abbrev Location := Option (Int × Int)

/-- Modelled from the spec: the bounding box kept in
`InfoHandler::bounds` ("a bounding box, extended only by Node locations
that are present (undefined nodes do not affect it)").  `none` is the
empty box, otherwise bottom-left and top-right corners are stored. -/
abbrev OsmBox := Option ((Int × Int) × (Int × Int))

/-- Modelled from the spec: `osmium::Box::extend` with a location.  An
absent location leaves the box unchanged; a present location extends
the corners. -/
def boxExtend : OsmBox → Location → OsmBox
  | b, none => b
  | none, some l => some (l, l)
  | some (bl, tr), some l =>
      some ((min bl.1 l.1, min bl.2 l.2), (max tr.1 l.1, max tr.2 l.2))

/-- Box containment: every point of the first box is inside the second. -/
def boxSubset : OsmBox → OsmBox → Prop
  | none, _ => True
  | some _, none => False
  | some (bl, tr), some (bl2, tr2) =>
      bl2.1 ≤ bl.1 ∧ bl2.2 ≤ bl.2 ∧ tr.1 ≤ tr2.1 ∧ tr.2 ≤ tr2.2

/-- Modelled from the spec: the external min-tracker
`osmium::min_op<osmium::Timestamp>` feeding `first_timestamp`: "smaller
wins", "ignoring absent timestamps"; `none` is the unset sentinel
(`osmium::end_of_time()`), which "compares larger than any real
timestamp". -/
def minTsUpdate : Option Nat → Option Nat → Option Nat
  | cur, none => cur
  | none, some t => some t
  | some c, some t => some (min c t)

/-- Modelled from the spec: the external max-tracker
`osmium::max_op<osmium::Timestamp>` feeding `last_timestamp`: "larger
wins", "ignoring absent timestamps"; `none` is the unset sentinel,
which "compares smaller than any real timestamp". -/
def maxTsUpdate : Option Nat → Option Nat → Option Nat
  | cur, none => cur
  | none, some t => some t
  | some c, some t => some (max c t)

/-- The running id maximum `osmium::max_op<osmium::object_id_type>`
seeded at 0: `update(v)` keeps the larger value. -/
def maxOpUpdate (cur v : Int) : Int := if cur < v then v else cur

/-- Modelled from the spec: the external comparator `osmium::id_order`
used in `InfoHandler::osm_object`.  The spec fixes only that "positive
ids must be non-decreasing" and calls the treatment of
negative/placeholder ids an inherited ambiguity (spec section 9), so the
comparator is modelled as the plain strict order, under which positive
ids behave exactly as the spec requires. -/
def idOrder (a b : Int) : Bool := decide (a < b)

/-- One bit step of the checksum register.  Modelled from the spec: the
"32-bit cyclic-redundancy accumulator" is the standard reflected CRC-32
computed by the external `boost::crc_32_type`. -/
def crcBitStep (r : Nat) : Nat :=
  if r % 2 = 1 then (r / 2) ^^^ 0xEDB88320 else r / 2

/-- One byte step of the CRC-32 register: xor the byte in, then run
eight bit steps. -/
def crcByteStep (r b : Nat) : Nat :=
  crcBitStep (crcBitStep (crcBitStep (crcBitStep
    (crcBitStep (crcBitStep (crcBitStep (crcBitStep (r ^^^ b))))))))

/-- Feed a byte sequence into the CRC-32 register. -/
def crcUpdate (r : Nat) (bytes : List Nat) : Nat := bytes.foldl crcByteStep r

/-- Initial CRC-32 register value. -/
def crcInitial : Nat := 0xFFFFFFFF

/-- Final CRC-32 checksum of a register value. -/
def crcChecksum (r : Nat) : Nat := r ^^^ 0xFFFFFFFF

/-- Little-endian byte decomposition of a natural number, fixed width. -/
def leBytes : Nat → Nat → List Nat
  | 0, _ => []
  | k + 1, n => n % 256 :: leBytes k (n / 256)

/-- Entities of the stream: a changeset or an OSM object, as in the
spec's data model ("a tagged union"). -/
inductive Entity
  | changeset (id : Int)
  | object (kind : ObjKind) (id : Int) (timestamp : Option Nat) (location : Location)
deriving DecidableEq

/-- Encoding of an optional timestamp into checksum bytes (presence
byte, then the value). -/
def encTs : Option Nat → List Nat
  | none => [0]
  | some t => 1 :: leBytes 4 (t % 2 ^ 32)

/-- Encoding of an optional location into checksum bytes (presence
byte, then the two coordinates). -/
def encLoc : Location → List Nat
  | none => [0]
  | some l => 1 :: (leBytes 4 (Int.toNat (l.1 % 2 ^ 32)) ++ leBytes 4 (Int.toNat (l.2 % 2 ^ 32)))

/-- Modelled from the spec: the "canonical binary encoding" of an
entity, "a deterministic byte representation of an entity used solely to
feed the checksum" (computed by the external `osmium::CRC` updates).
Modelled as a kind tag byte, the 64-bit little-endian two's-complement
id, and, for objects, the optional timestamp and location. -/
def encodeEntity : Entity → List Nat
  | Entity.changeset id => 5 :: leBytes 8 (Int.toNat (id % 2 ^ 64))
  | Entity.object kind id ts loc =>
      (ObjKind.toItemType kind).val :: (leBytes 8 (Int.toNat (id % 2 ^ 64)) ++ encTs ts ++ encLoc loc)

/-- The byte stream fed to the checksum by a whole entity stream, in
stream order. -/
def crcInput : List Entity → List Nat
  | [] => []
  | e :: rest => encodeEntity e ++ crcInput rest

/-- The state of `struct InfoHandler` from `command_fileinfo.cpp`. -/
structure InfoHandler where
  bounds : OsmBox
  changesets : Nat
  nodes : Nat
  ways : Nat
  relations : Nat
  largest_changeset_id : Int
  largest_node_id : Int
  largest_way_id : Int
  largest_relation_id : Int
  first_timestamp : Option Nat
  last_timestamp : Option Nat
  crc32 : Nat
  ordered : Bool
  multiple_versions : Bool
  last_type : ItemType
  last_id : Int
deriving DecidableEq

/-- The member-initializer state of `InfoHandler`: empty box, zero
counts, id maxima seeded at 0, unset timestamps, `ordered = true`,
`multiple_versions = false`, `last_type = undefined`, `last_id = 0`. -/
def initialInfo : InfoHandler :=
  { bounds := none
    changesets := 0
    nodes := 0
    ways := 0
    relations := 0
    largest_changeset_id := 0
    largest_node_id := 0
    largest_way_id := 0
    largest_relation_id := 0
    first_timestamp := none
    last_timestamp := none
    crc32 := crcInitial
    ordered := true
    multiple_versions := false
    last_type := ItemType.undefined
    last_id := 0 }

/-- `InfoHandler::changeset`: flag a decrease of consecutive changeset
ids, advance `last_type`/`last_id`, feed the checksum, count, and track
the largest changeset id. -/
def InfoHandler.changeset_step (h : InfoHandler) (id : Int) : InfoHandler :=
  let h1 :=
    if h.last_type = ItemType.changeset then
      if h.last_id > id then { h with ordered := false } else h
    else
      { h with last_type := ItemType.changeset }
  { h1 with
    last_id := id
    crc32 := crcUpdate h1.crc32 (encodeEntity (Entity.changeset id))
    changesets := h1.changesets + 1
    largest_changeset_id := maxOpUpdate h1.largest_changeset_id id }

/-- `InfoHandler::osm_object`: update the timestamp extrema, then run
the one-entity-lookback order/duplicate checks, then advance
`last_type`/`last_id`. -/
def InfoHandler.osm_object_step (h : InfoHandler) (kind : ObjKind) (id : Int)
    (ts : Option Nat) : InfoHandler :=
  let h1 := { h with
    first_timestamp := minTsUpdate h.first_timestamp ts
    last_timestamp := maxTsUpdate h.last_timestamp ts }
  let h2 :=
    if h1.last_type = ObjKind.toItemType kind then
      let ha := if h1.last_id = id then { h1 with multiple_versions := true } else h1
      if idOrder id ha.last_id then { ha with ordered := false } else ha
    else
      if h1.last_type ≠ ItemType.changeset ∧ (ObjKind.toItemType kind).val < h1.last_type.val then
        { h1 with ordered := false }
      else h1
  { h2 with last_type := ObjKind.toItemType kind, last_id := id }

/-- `InfoHandler::node`: checksum, bounds extension, count, largest id. -/
def InfoHandler.node_step (h : InfoHandler) (id : Int) (ts : Option Nat)
    (loc : Location) : InfoHandler :=
  { h with
    crc32 := crcUpdate h.crc32 (encodeEntity (Entity.object ObjKind.node id ts loc))
    bounds := boxExtend h.bounds loc
    nodes := h.nodes + 1
    largest_node_id := maxOpUpdate h.largest_node_id id }

/-- `InfoHandler::way`: checksum, count, largest id. -/
def InfoHandler.way_step (h : InfoHandler) (id : Int) (ts : Option Nat)
    (loc : Location) : InfoHandler :=
  { h with
    crc32 := crcUpdate h.crc32 (encodeEntity (Entity.object ObjKind.way id ts loc))
    ways := h.ways + 1
    largest_way_id := maxOpUpdate h.largest_way_id id }

/-- `InfoHandler::relation`: checksum, count, largest id. -/
def InfoHandler.relation_step (h : InfoHandler) (id : Int) (ts : Option Nat)
    (loc : Location) : InfoHandler :=
  { h with
    crc32 := crcUpdate h.crc32 (encodeEntity (Entity.object ObjKind.relation id ts loc))
    relations := h.relations + 1
    largest_relation_id := maxOpUpdate h.largest_relation_id id }

/-- Processing of one entity by the handler, as dispatched by
`osmium::apply`: a changeset goes to `InfoHandler::changeset`; an object
goes to `InfoHandler::osm_object` followed by its kind-specific hook. -/
def InfoHandler.applyEntity : InfoHandler → Entity → InfoHandler
  | h, Entity.changeset id => h.changeset_step id
  | h, Entity.object kind id ts loc =>
      let h1 := h.osm_object_step kind id ts
      match kind with
      | ObjKind.node => h1.node_step id ts loc
      | ObjKind.way => h1.way_step id ts loc
      | ObjKind.relation => h1.relation_step id ts loc

/-- The single forward pass of the extended run in
`CommandFileinfo::run`: fold the entity stream into the handler state. -/
def runInfo (entities : List Entity) : InfoHandler :=
  entities.foldl InfoHandler.applyEntity initialInfo

theorem applyEntity_object_multiple_versions (h : InfoHandler) (kind : ObjKind)
    (id : Int) (ts : Option Nat) (loc : Location) :
    (h.applyEntity (Entity.object kind id ts loc)).multiple_versions =
      (h.osm_object_step kind id ts).multiple_versions := by
  cases kind <;> rfl

theorem applyEntity_object_ordered (h : InfoHandler) (kind : ObjKind)
    (id : Int) (ts : Option Nat) (loc : Location) :
    (h.applyEntity (Entity.object kind id ts loc)).ordered =
      (h.osm_object_step kind id ts).ordered := by
  cases kind <;> rfl

/-- C1: processing an object of the same kind as the immediately
preceding entity sets `multiple_versions` to true exactly when the two
ids are equal; the object sequence [Node#3, Node#3, Node#4] ends with
`ordered = true` and `multiple_versions = true`. -/
theorem claim_C1_same_kind_duplicate (h : InfoHandler) (kind : ObjKind) (id : Int)
    (ts : Option Nat) (loc : Location)
    (hk : h.last_type = ObjKind.toItemType kind) :
    ((h.applyEntity (Entity.object kind id ts loc)).multiple_versions = true ↔
      (h.multiple_versions = true ∨ h.last_id = id)) ∧
    (runInfo [Entity.object ObjKind.node 3 none none, Entity.object ObjKind.node 3 none none,
      Entity.object ObjKind.node 4 none none]).ordered = true ∧
    (runInfo [Entity.object ObjKind.node 3 none none, Entity.object ObjKind.node 3 none none,
      Entity.object ObjKind.node 4 none none]).multiple_versions = true := by
  refine ⟨?_, by decide, by decide⟩
  rw [applyEntity_object_multiple_versions]
  simp only [InfoHandler.osm_object_step]
  split_ifs <;> simp_all

/-- Witness for C1 at a concrete state whose last seen entity is Node#3. -/
theorem claim_C1_same_kind_duplicate_witness :
    (({ initialInfo with last_type := ItemType.node, last_id := 3 } : InfoHandler).applyEntity
        (Entity.object ObjKind.node 3 none none)).multiple_versions = true ↔
      (({ initialInfo with last_type := ItemType.node, last_id := 3 } : InfoHandler).multiple_versions = true ∨
        ({ initialInfo with last_type := ItemType.node, last_id := 3 } : InfoHandler).last_id = 3) :=
  (claim_C1_same_kind_duplicate
    { initialInfo with last_type := ItemType.node, last_id := 3 }
    ObjKind.node 3 none none rfl).1

/-- C2: processing a changeset sets `ordered` to false exactly when the
immediately preceding entity was also a changeset with a strictly
greater id; changeset ids [1, 2, 2, 5] end ordered, [1, 5, 3] end
unordered. -/
theorem claim_C2_changeset_order :
    (∀ (h : InfoHandler) (id : Int),
      ((h.applyEntity (Entity.changeset id)).ordered = false ↔
        (h.ordered = false ∨ (h.last_type = ItemType.changeset ∧ id < h.last_id)))) ∧
    (runInfo ([1, 2, 2, 5].map Entity.changeset)).ordered = true ∧
    (runInfo ([1, 5, 3].map Entity.changeset)).ordered = false := by
  refine ⟨?_, by decide, by decide⟩
  intro h id
  show (h.changeset_step id).ordered = false ↔ _
  simp only [InfoHandler.changeset_step]
  split_ifs <;> simp_all

/-- C3: processing an object whose kind differs from the immediately
preceding entity's kind sets `ordered` to false exactly when the
preceding entity was a real object (not a changeset and not the initial
state) of a kind with strictly higher rank in the order
node < way < relation; [Node#1, Way#1, Node#2] ends unordered. -/
theorem claim_C3_kind_regression (h : InfoHandler) (kind : ObjKind) (id : Int)
    (ts : Option Nat) (loc : Location)
    (hk : h.last_type ≠ ObjKind.toItemType kind) :
    ((h.applyEntity (Entity.object kind id ts loc)).ordered = false ↔
      (h.ordered = false ∨
        ((h.last_type = ItemType.node ∨ h.last_type = ItemType.way ∨
            h.last_type = ItemType.relation) ∧
          (ObjKind.toItemType kind).val < h.last_type.val))) ∧
    (runInfo [Entity.object ObjKind.node 1 none none, Entity.object ObjKind.way 1 none none,
      Entity.object ObjKind.node 2 none none]).ordered = false := by
  refine ⟨?_, by decide⟩
  rw [applyEntity_object_ordered]
  cases htl : h.last_type <;> cases kind <;>
    simp_all [InfoHandler.osm_object_step, ObjKind.toItemType, ItemType.val]

/-- Witness for C3 at a concrete state whose last seen entity is Way#1,
followed by Node#2. -/
theorem claim_C3_kind_regression_witness :
    ((({ initialInfo with last_type := ItemType.way, last_id := 1 } : InfoHandler).applyEntity
        (Entity.object ObjKind.node 2 none none)).ordered = false ↔
      (({ initialInfo with last_type := ItemType.way, last_id := 1 } : InfoHandler).ordered = false ∨
        ((({ initialInfo with last_type := ItemType.way, last_id := 1 } : InfoHandler).last_type = ItemType.node ∨
            ({ initialInfo with last_type := ItemType.way, last_id := 1 } : InfoHandler).last_type = ItemType.way ∨
            ({ initialInfo with last_type := ItemType.way, last_id := 1 } : InfoHandler).last_type = ItemType.relation) ∧
          (ObjKind.toItemType ObjKind.node).val <
            ({ initialInfo with last_type := ItemType.way, last_id := 1 } : InfoHandler).last_type.val))) :=
  (claim_C3_kind_regression
    { initialInfo with last_type := ItemType.way, last_id := 1 }
    ObjKind.node 2 none none (by decide)).1

/-- C10: if the immediately preceding entity was a changeset, or no
entity has been seen yet, processing an object changes neither `ordered`
nor `multiple_versions`; [Way#1, Changeset#9, Node#1] ends with
`ordered = true`. -/
theorem claim_C10_changeset_resets_lookback (h : InfoHandler) (kind : ObjKind)
    (id : Int) (ts : Option Nat) (loc : Location)
    (hk : h.last_type = ItemType.changeset ∨ h.last_type = ItemType.undefined) :
    ((h.applyEntity (Entity.object kind id ts loc)).ordered = h.ordered ∧
     (h.applyEntity (Entity.object kind id ts loc)).multiple_versions = h.multiple_versions) ∧
    (runInfo [Entity.object ObjKind.way 1 none none, Entity.changeset 9,
      Entity.object ObjKind.node 1 none none]).ordered = true ∧
    (runInfo [Entity.object ObjKind.way 1 none none, Entity.changeset 9,
      Entity.object ObjKind.node 1 none none]).multiple_versions = false := by
  refine ⟨⟨?_, ?_⟩, by decide, by decide⟩
  · rw [applyEntity_object_ordered]
    rcases hk with hk | hk <;> cases kind <;>
      simp_all [InfoHandler.osm_object_step, ObjKind.toItemType, ItemType.val]
  · rw [applyEntity_object_multiple_versions]
    rcases hk with hk | hk <;> cases kind <;>
      simp_all [InfoHandler.osm_object_step, ObjKind.toItemType, ItemType.val]

/-- Witness for C10: a node arriving right after a changeset leaves
both flags unchanged. -/
theorem claim_C10_changeset_resets_lookback_witness :
    ((({ initialInfo with last_type := ItemType.changeset, last_id := 9 } : InfoHandler).applyEntity
        (Entity.object ObjKind.node 1 none none)).ordered =
      ({ initialInfo with last_type := ItemType.changeset, last_id := 9 } : InfoHandler).ordered ∧
     (({ initialInfo with last_type := ItemType.changeset, last_id := 9 } : InfoHandler).applyEntity
        (Entity.object ObjKind.node 1 none none)).multiple_versions =
      ({ initialInfo with last_type := ItemType.changeset, last_id := 9 } : InfoHandler).multiple_versions) :=
  (claim_C10_changeset_resets_lookback
    { initialInfo with last_type := ItemType.changeset, last_id := 9 }
    ObjKind.node 1 none none (Or.inl rfl)).1

theorem boxSubset_refl (b : OsmBox) : boxSubset b b := by
  rcases b with _ | ⟨⟨x, y⟩, ⟨z, w⟩⟩ <;> simp [boxSubset]

theorem boxSubset_extend (b : OsmBox) (loc : Location) : boxSubset b (boxExtend b loc) := by
  rcases loc with _ | ⟨x, y⟩ <;> rcases b with _ | ⟨⟨a, c⟩, ⟨d, e⟩⟩ <;>
    simp [boxExtend, boxSubset, min_le_left, le_max_left]

theorem le_maxOpUpdate (cur v : Int) : cur ≤ maxOpUpdate cur v := by
  unfold maxOpUpdate
  split_ifs with hlt
  · exact le_of_lt hlt
  · exact le_refl cur

theorem changeset_step_fields (h : InfoHandler) (id : Int) :
    (h.changeset_step id).bounds = h.bounds ∧
    (h.changeset_step id).changesets = h.changesets + 1 ∧
    (h.changeset_step id).nodes = h.nodes ∧
    (h.changeset_step id).ways = h.ways ∧
    (h.changeset_step id).relations = h.relations ∧
    (h.changeset_step id).largest_changeset_id = maxOpUpdate h.largest_changeset_id id ∧
    (h.changeset_step id).largest_node_id = h.largest_node_id ∧
    (h.changeset_step id).largest_way_id = h.largest_way_id ∧
    (h.changeset_step id).largest_relation_id = h.largest_relation_id ∧
    (h.changeset_step id).multiple_versions = h.multiple_versions := by
  simp only [InfoHandler.changeset_step]
  split_ifs <;> simp

theorem changeset_step_ordered_le (h : InfoHandler) (id : Int) :
    (h.changeset_step id).ordered ≤ h.ordered := by
  simp only [InfoHandler.changeset_step]
  split_ifs <;> simp

theorem osm_object_step_fields (h : InfoHandler) (kind : ObjKind) (id : Int)
    (ts : Option Nat) :
    (h.osm_object_step kind id ts).bounds = h.bounds ∧
    (h.osm_object_step kind id ts).changesets = h.changesets ∧
    (h.osm_object_step kind id ts).nodes = h.nodes ∧
    (h.osm_object_step kind id ts).ways = h.ways ∧
    (h.osm_object_step kind id ts).relations = h.relations ∧
    (h.osm_object_step kind id ts).largest_changeset_id = h.largest_changeset_id ∧
    (h.osm_object_step kind id ts).largest_node_id = h.largest_node_id ∧
    (h.osm_object_step kind id ts).largest_way_id = h.largest_way_id ∧
    (h.osm_object_step kind id ts).largest_relation_id = h.largest_relation_id ∧
    (h.osm_object_step kind id ts).crc32 = h.crc32 := by
  simp only [InfoHandler.osm_object_step]
  split_ifs <;> simp

theorem osm_object_step_ordered_le (h : InfoHandler) (kind : ObjKind) (id : Int)
    (ts : Option Nat) :
    (h.osm_object_step kind id ts).ordered ≤ h.ordered := by
  simp only [InfoHandler.osm_object_step]
  split_ifs <;> simp

theorem osm_object_step_mv_le (h : InfoHandler) (kind : ObjKind) (id : Int)
    (ts : Option Nat) :
    h.multiple_versions ≤ (h.osm_object_step kind id ts).multiple_versions := by
  simp only [InfoHandler.osm_object_step]
  split_ifs <;> simp

/-- C4: every single-entity update of the handler is monotone: the
bounding box never shrinks, the four counters and four id maxima never
decrease, `ordered` starts true and can only go from true to false, and
`multiple_versions` starts false and can only go from false to true. -/
theorem claim_C4_monotone :
    (∀ (h : InfoHandler) (e : Entity),
      boxSubset h.bounds (h.applyEntity e).bounds ∧
      h.changesets ≤ (h.applyEntity e).changesets ∧
      h.nodes ≤ (h.applyEntity e).nodes ∧
      h.ways ≤ (h.applyEntity e).ways ∧
      h.relations ≤ (h.applyEntity e).relations ∧
      h.largest_changeset_id ≤ (h.applyEntity e).largest_changeset_id ∧
      h.largest_node_id ≤ (h.applyEntity e).largest_node_id ∧
      h.largest_way_id ≤ (h.applyEntity e).largest_way_id ∧
      h.largest_relation_id ≤ (h.applyEntity e).largest_relation_id ∧
      (h.applyEntity e).ordered ≤ h.ordered ∧
      h.multiple_versions ≤ (h.applyEntity e).multiple_versions) ∧
    initialInfo.ordered = true ∧ initialInfo.multiple_versions = false := by
  refine ⟨?_, rfl, rfl⟩
  intro h e
  rcases e with id | ⟨kind, id, ts, loc⟩
  · obtain ⟨hb, hc, hn, hw, hr, hlc, hln, hlw, hlr, hmv⟩ := changeset_step_fields h id
    refine ⟨?_, ?_, ?_, ?_, ?_, ?_, ?_, ?_, ?_, ?_, ?_⟩ <;>
      simp only [InfoHandler.applyEntity, hb, hc, hn, hw, hr, hlc, hln, hlw, hlr, hmv]
    · exact boxSubset_refl _
    · exact Nat.le_succ _
    · exact le_refl _
    · exact le_refl _
    · exact le_refl _
    · exact le_maxOpUpdate _ _
    · exact le_refl _
    · exact le_refl _
    · exact le_refl _
    · exact changeset_step_ordered_le h id
    · exact le_refl _
  · obtain ⟨hb, hc, hn, hw, hr, hlc, hln, hlw, hlr, _⟩ := osm_object_step_fields h kind id ts
    have hord := osm_object_step_ordered_le h kind id ts
    have hmv := osm_object_step_mv_le h kind id ts
    cases kind <;>
      refine ⟨?_, ?_, ?_, ?_, ?_, ?_, ?_, ?_, ?_, ?_, ?_⟩ <;>
        simp only [InfoHandler.applyEntity, InfoHandler.node_step, InfoHandler.way_step,
          InfoHandler.relation_step, hb, hc, hn, hw, hr, hlc, hln, hlw, hlr] <;>
        first
          | exact boxSubset_extend _ _
          | exact boxSubset_refl _
          | exact Nat.le_succ _
          | exact le_maxOpUpdate _ _
          | exact hord
          | exact hmv
          | exact le_refl _

/-- Header metadata as delivered by the entity stream.  Modelled from
the spec: "a set of declared bounding boxes, a 'declared multi-version'
flag, and an ordered sequence of free-form string key/value options ...
duplicate keys are possible and all are preserved in arrival order".
The boxes play no role in the views verified here and are omitted. -/
structure Header where
  with_history : Bool
  options : List (String × String)

/-- File metadata as used by the `file` sections of the outputs. -/
structure FileMeta where
  input_filename : String
  format : String
  compression : String
  filename : String
  size : Nat

/-- Modelled from the spec: the yes/no rendering helper from the
repository's utility file (outside this fragment); one line of text. -/
def yes_no (b : Bool) : String := if b then "yes" else "no"

/-- Modelled from the spec: the external timestamp formatter
(`operator<<` / `to_iso`); its exact text is outside this fragment, it
only matters that one timestamp renders as one line. -/
def tsRender (t : Nat) : String := toString t

/-- Rendering of a possibly-unset timestamp tracker value; the unset
case is only reachable behind the first-timestamp sentinel guard. -/
def tsLineOfOption : Option Nat → String
  | none => ""
  | some t => tsRender t

/-- Modelled from the spec: the external bounding-box formatter
(one line). -/
def boxRender : OsmBox → String
  | none => "(undefined)"
  | some (bl, tr) =>
      "(" ++ toString bl.1 ++ "," ++ toString bl.2 ++ "," ++
        toString tr.1 ++ "," ++ toString tr.2 ++ ")"

/-- Lowercase hexadecimal rendering of a number, as printed by
`std::hex` for the checksum. -/
def natToHex (n : Nat) : String := String.mk (Nat.toDigits 16 n)

/-- Byte-prefix test `s.substr(0, p.size()) == p`, as written in
`CommandFileinfo::setup`. -/
def strStartsWith (s p : String) : Bool := List.isPrefixOf p.data s.data

/-- `SimpleOutput::file`: the lines printed for the `file.*` keys.  Each
element of the result is one output line. -/
def SimpleOutput.fileLines (get_value : String) (m : FileMeta) : List String :=
  (if get_value = "file.name" then [m.input_filename] else []) ++
  (if get_value = "file.format" then [m.format] else []) ++
  (if get_value = "file.compression" then [m.compression] else []) ++
  (if get_value = "file.size" then
    [if m.filename = "" then "0" else toString m.size] else [])

/-- `SimpleOutput::header`: the `header.with_history` line, then one
line per header option whose full dotted name equals the requested
key (the loop body builds `"header.option." + option.first` and
compares). -/
def SimpleOutput.headerLines (get_value : String) (hdr : Header) : List String :=
  (if get_value = "header.with_history" then [yes_no hdr.with_history] else []) ++
  hdr.options.filterMap (fun opt =>
    if get_value = "header.option." ++ opt.1 then some opt.2 else none)

/-- `SimpleOutput::data`: the lines printed for the `data.*` keys.  Note
that the guard of `data.timestamp.last` tests `first_timestamp` against
the sentinel, exactly as the source does. -/
def SimpleOutput.dataLines (get_value : String) (info : InfoHandler) : List String :=
  (if get_value = "data.bbox" then [boxRender info.bounds] else []) ++
  (if get_value = "data.timestamp.first" then
    [match info.first_timestamp with
     | none => ""
     | some t => tsRender t] else []) ++
  (if get_value = "data.timestamp.last" then
    [match info.first_timestamp with
     | none => ""
     | some _ => tsLineOfOption info.last_timestamp] else []) ++
  (if get_value = "data.objects_ordered" then
    [if info.ordered then "yes" else "no"] else []) ++
  (if get_value = "data.multiple_versions" then
    [if info.ordered then (if info.multiple_versions then "yes" else "no")
     else "unknown"] else []) ++
  (if get_value = "data.crc32" then [natToHex (crcChecksum info.crc32)] else []) ++
  (if get_value = "data.count.changesets" then [toString info.changesets] else []) ++
  (if get_value = "data.count.nodes" then [toString info.nodes] else []) ++
  (if get_value = "data.count.ways" then [toString info.ways] else []) ++
  (if get_value = "data.count.relations" then [toString info.relations] else []) ++
  (if get_value = "data.maxid.changesets" then [toString info.largest_changeset_id] else []) ++
  (if get_value = "data.maxid.nodes" then [toString info.largest_node_id] else []) ++
  (if get_value = "data.maxid.ways" then [toString info.largest_way_id] else []) ++
  (if get_value = "data.maxid.relations" then [toString info.largest_relation_id] else [])

/-- One whole single-value invocation: `CommandFileinfo::run` calls
`output->file`, then `output->header`, and `output->data` only in
extended mode. -/
def SimpleOutput.runLines (get_value : String) (m : FileMeta) (hdr : Header)
    (extended : Bool) (info : InfoHandler) : List String :=
  SimpleOutput.fileLines get_value m ++
  SimpleOutput.headerLines get_value hdr ++
  (if extended then SimpleOutput.dataLines get_value info else [])

/-- Structured (JSON) values. -/
inductive JValue
  | str (s : String)
  | bool (b : Bool)
  | num (n : Int)
  | arr (elems : List JValue)
  | obj (fields : List (String × JValue))

/-- `JSONOutput::add_bbox`: a box as four ordered numbers (min-lon,
min-lat, max-lon, max-lat).  Modelled from the spec for the empty box,
whose external corner accessors are outside this fragment. -/
def bboxJson : OsmBox → JValue
  | none => JValue.arr [JValue.num 0, JValue.num 0, JValue.num 0, JValue.num 0]
  | some (bl, tr) => JValue.arr [JValue.num bl.1, JValue.num bl.2, JValue.num tr.1, JValue.num tr.2]

/-- `JSONOutput::data`: the fields of the `data` object, in emission
order.  The `timestamp` group is present only when `first_timestamp` is
not the sentinel, and `multiple_versions` only when `ordered` is true. -/
def JSONOutput.dataFields (info : InfoHandler) : List (String × JValue) :=
  [("bbox", bboxJson info.bounds)] ++
  (match info.first_timestamp with
   | none => []
   | some t =>
       [("timestamp", JValue.obj
          [("first", JValue.str (tsRender t)),
           ("last", JValue.str (tsLineOfOption info.last_timestamp))])]) ++
  [("objects_ordered", JValue.bool info.ordered)] ++
  (if info.ordered then [("multiple_versions", JValue.bool info.multiple_versions)] else []) ++
  [("crc32", JValue.str (natToHex (crcChecksum info.crc32))),
   ("count", JValue.obj
      [("changesets", JValue.num (info.changesets : Int)),
       ("nodes", JValue.num (info.nodes : Int)),
       ("ways", JValue.num (info.ways : Int)),
       ("relations", JValue.num (info.relations : Int))]),
   ("maxid", JValue.obj
      [("changesets", JValue.num info.largest_changeset_id),
       ("nodes", JValue.num info.largest_node_id),
       ("ways", JValue.num info.largest_way_id),
       ("relations", JValue.num info.largest_relation_id)])]

/-- C5: when the finalized result is unordered, the single-value query
for `data.multiple_versions` prints exactly `unknown`, and the JSON view
omits the `multiple_versions` key entirely; when ordered, both views
report the boolean. -/
theorem claim_C5_unknown_when_unordered (info : InfoHandler) :
    (info.ordered = false →
      SimpleOutput.dataLines "data.multiple_versions" info = ["unknown"] ∧
      List.lookup "multiple_versions" (JSONOutput.dataFields info) = none) ∧
    (info.ordered = true →
      SimpleOutput.dataLines "data.multiple_versions" info =
        [if info.multiple_versions then "yes" else "no"] ∧
      List.lookup "multiple_versions" (JSONOutput.dataFields info) =
        some (JValue.bool info.multiple_versions)) := by
  have hsimple : SimpleOutput.dataLines "data.multiple_versions" info =
      [if info.ordered then (if info.multiple_versions then "yes" else "no")
       else "unknown"] := rfl
  constructor <;> intro hord <;> rw [hsimple, hord] <;>
    rcases hts : info.first_timestamp with _ | t <;>
      simp [JSONOutput.dataFields, hts, hord, List.lookup]

/-- Witness for C5 on a concrete unordered state and a concrete ordered
state. -/
theorem claim_C5_unknown_when_unordered_witness :
    (SimpleOutput.dataLines "data.multiple_versions"
        { initialInfo with ordered := false } = ["unknown"] ∧
      List.lookup "multiple_versions"
        (JSONOutput.dataFields { initialInfo with ordered := false }) = none) ∧
    (SimpleOutput.dataLines "data.multiple_versions" initialInfo =
        [if initialInfo.multiple_versions then "yes" else "no"] ∧
      List.lookup "multiple_versions" (JSONOutput.dataFields initialInfo) =
        some (JValue.bool initialInfo.multiple_versions)) :=
  ⟨(claim_C5_unknown_when_unordered { initialInfo with ordered := false }).1 rfl,
   (claim_C5_unknown_when_unordered initialInfo).2 rfl⟩

/-- The two configuration errors thrown by `CommandFileinfo::setup` for
a `--get` request: unknown key, or a `data.*` key without `--extended`. -/
inductive ArgError
  | unknownValue
  | extendedRequired
deriving DecidableEq

/-- The fixed catalog `known_values` of `CommandFileinfo::setup`, in
source order. -/
def known_values : List String :=
  ["file.name",
   "file.format",
   "file.compression",
   "file.size",
   "header.with_history",
   "header.option.generator",
   "header.option.osmosis_replication_base_url",
   "header.option.osmosis_replication_sequence_number",
   "header.option.osmosis_replication_timestamp",
   "header.option.pbf_dense_nodes",
   "header.option.timestamp",
   "header.option.version",
   "data.bbox",
   "data.timestamp.first",
   "data.timestamp.last",
   "data.objects_ordered",
   "data.multiple_versions",
   "data.crc32",
   "data.count.nodes",
   "data.count.ways",
   "data.count.relations",
   "data.count.changesets",
   "data.maxid.nodes",
   "data.maxid.ways",
   "data.maxid.relations",
   "data.maxid.changesets"]

/-- The `--get` validation of `CommandFileinfo::setup`: first, a key
that does not begin with `header.option.` and is not found in
`known_values` throws the unknown-value error; then a key beginning
with `data.` without extended mode throws the extended-required error;
otherwise the request is accepted.  The two sequential C++ `throw`
statements become the two error branches. -/
def validate_get (get_value : String) (extended : Bool) : Except ArgError Unit :=
  if strStartsWith get_value "header.option." = false ∧ get_value ∉ known_values then
    Except.error ArgError.unknownValue
  else if strStartsWith get_value "data." = true ∧ extended = false then
    Except.error ArgError.extendedRequired
  else
    Except.ok ()

/-- C6: a requested key passes key validation iff it starts with
`header.option.` or appears verbatim in the catalog; everything else is
the unknown-value configuration error; an accepted `data.*` key without
extended mode is the distinct extended-required error; in particular
`data.count.nodes` without extended mode is rejected while
`header.option.anything` is always accepted. -/
theorem claim_C6_key_validation :
    (∀ (g : String) (ext : Bool),
      validate_get g ext = Except.error ArgError.unknownValue ↔
        ¬(strStartsWith g "header.option." = true ∨ g ∈ known_values)) ∧
    (∀ g : String,
      validate_get g true = Except.ok () ↔
        (strStartsWith g "header.option." = true ∨ g ∈ known_values)) ∧
    (∀ g : String,
      (strStartsWith g "header.option." = true ∨ g ∈ known_values) →
        strStartsWith g "data." = true →
        validate_get g false = Except.error ArgError.extendedRequired) ∧
    ArgError.unknownValue ≠ ArgError.extendedRequired ∧
    validate_get "data.count.nodes" false = Except.error ArgError.extendedRequired ∧
    validate_get "data.count.nodes" true = Except.ok () ∧
    (∀ ext : Bool, validate_get "header.option.anything" ext = Except.ok ()) := by
  refine ⟨?_, ?_, ?_, by decide, rfl, rfl, ?_⟩
  · intro g ext
    unfold validate_get
    split_ifs with h1 h2 <;> simp_all
  · intro g
    unfold validate_get
    split_ifs with h1 h2 <;> simp_all
    cases hsw : strStartsWith g "header.option." with
    | false => exact Or.inr (h1 hsw)
    | true => exact Or.inl rfl
  · intro g hacc hdata
    unfold validate_get
    split_ifs with h1 h2 <;> simp_all
  · intro ext
    cases ext <;> rfl

/-- Witness for C6: the catalog key `data.bbox` without extended mode is
rejected with the extended-required error. -/
theorem claim_C6_key_validation_witness :
    validate_get "data.bbox" false = Except.error ArgError.extendedRequired :=
  claim_C6_key_validation.2.2.1 "data.bbox" (Or.inr (by decide)) (by decide)

/-- Whether an entity carries a present timestamp (changesets never
contribute to the timestamp extrema). -/
def Entity.hasTimestamp : Entity → Bool
  | Entity.object _ _ (some _) _ => true
  | _ => false

/-- The timestamp an entity feeds into the extrema trackers. -/
def Entity.tsOf : Entity → Option Nat
  | Entity.object _ _ ts _ => ts
  | Entity.changeset _ => none

theorem applyEntity_first_timestamp (h : InfoHandler) (e : Entity) :
    (h.applyEntity e).first_timestamp = minTsUpdate h.first_timestamp e.tsOf := by
  rcases e with id | ⟨kind, id, ts, loc⟩
  · show (h.changeset_step id).first_timestamp = _
    simp only [InfoHandler.changeset_step, Entity.tsOf, minTsUpdate]
    split_ifs <;> rfl
  · have hcast : (h.applyEntity (Entity.object kind id ts loc)).first_timestamp =
        (h.osm_object_step kind id ts).first_timestamp := by cases kind <;> rfl
    rw [hcast]
    simp only [InfoHandler.osm_object_step, Entity.tsOf]
    split_ifs <;> rfl

theorem applyEntity_last_timestamp (h : InfoHandler) (e : Entity) :
    (h.applyEntity e).last_timestamp = maxTsUpdate h.last_timestamp e.tsOf := by
  rcases e with id | ⟨kind, id, ts, loc⟩
  · show (h.changeset_step id).last_timestamp = _
    simp only [InfoHandler.changeset_step, Entity.tsOf, maxTsUpdate]
    split_ifs <;> rfl
  · have hcast : (h.applyEntity (Entity.object kind id ts loc)).last_timestamp =
        (h.osm_object_step kind id ts).last_timestamp := by cases kind <;> rfl
    rw [hcast]
    simp only [InfoHandler.osm_object_step, Entity.tsOf]
    split_ifs <;> rfl

theorem minTsUpdate_absent (cur : Option Nat) : minTsUpdate cur none = cur := by
  rcases cur with _ | c <;> rfl

theorem maxTsUpdate_absent (cur : Option Nat) : maxTsUpdate cur none = cur := by
  rcases cur with _ | c <;> rfl

theorem minTsUpdate_none_iff (cur ts : Option Nat) :
    minTsUpdate cur ts = none ↔ (cur = none ∧ ts = none) := by
  rcases cur with _ | c <;> rcases ts with _ | t <;> simp [minTsUpdate]

theorem maxTsUpdate_none_iff (cur ts : Option Nat) :
    maxTsUpdate cur ts = none ↔ (cur = none ∧ ts = none) := by
  rcases cur with _ | c <;> rcases ts with _ | t <;> simp [maxTsUpdate]

theorem hasTimestamp_false_iff (e : Entity) : e.hasTimestamp = false ↔ e.tsOf = none := by
  rcases e with id | ⟨kind, id, ts, loc⟩ <;> [skip; rcases ts with _ | t] <;>
    simp [Entity.hasTimestamp, Entity.tsOf]

theorem fold_timestamps_none_iff (entities : List Entity) :
    ∀ h : InfoHandler,
      ((entities.foldl InfoHandler.applyEntity h).first_timestamp = none ↔
        (h.first_timestamp = none ∧ ∀ e ∈ entities, Entity.hasTimestamp e = false)) ∧
      ((entities.foldl InfoHandler.applyEntity h).last_timestamp = none ↔
        (h.last_timestamp = none ∧ ∀ e ∈ entities, Entity.hasTimestamp e = false)) := by
  induction entities with
  | nil => intro h; simp
  | cons e rest ih =>
    intro h
    have hfold : (e :: rest).foldl InfoHandler.applyEntity h =
        rest.foldl InfoHandler.applyEntity (h.applyEntity e) := rfl
    rw [hfold]
    obtain ⟨ih1, ih2⟩ := ih (h.applyEntity e)
    constructor
    · rw [ih1, applyEntity_first_timestamp, minTsUpdate_none_iff, ← hasTimestamp_false_iff]
      simp [and_assoc]
    · rw [ih2, applyEntity_last_timestamp, maxTsUpdate_none_iff, ← hasTimestamp_false_iff]
      simp [and_assoc]

/-- C7 (amended): processing an object whose optional timestamp is
absent leaves `first_timestamp` and `last_timestamp` unchanged, and the
unset sentinel values remain observable exactly when zero objects with
a present timestamp were seen. -/
theorem claim_C7_absent_timestamps :
    (∀ (h : InfoHandler) (kind : ObjKind) (id : Int) (loc : Location),
      (h.applyEntity (Entity.object kind id none loc)).first_timestamp = h.first_timestamp ∧
      (h.applyEntity (Entity.object kind id none loc)).last_timestamp = h.last_timestamp) ∧
    (∀ entities : List Entity,
      ((runInfo entities).first_timestamp = none ↔
        ∀ e ∈ entities, Entity.hasTimestamp e = false) ∧
      ((runInfo entities).last_timestamp = none ↔
        ∀ e ∈ entities, Entity.hasTimestamp e = false)) := by
  constructor
  · intro h kind id loc
    rw [applyEntity_first_timestamp, applyEntity_last_timestamp]
    exact ⟨minTsUpdate_absent _, maxTsUpdate_absent _⟩
  · intro entities
    obtain ⟨h1, h2⟩ := fold_timestamps_none_iff entities initialInfo
    unfold runInfo
    rw [h1, h2]
    simp [initialInfo]

/-- Witness for C7: an absent timestamp leaves the trackers of the
initial state unchanged, and a changeset-only stream keeps both
sentinels. -/
theorem claim_C7_absent_timestamps_witness :
    (initialInfo.applyEntity (Entity.object ObjKind.node 5 none none)).first_timestamp =
      initialInfo.first_timestamp ∧
    (runInfo [Entity.changeset 1]).first_timestamp = none :=
  ⟨(claim_C7_absent_timestamps.1 initialInfo ObjKind.node 5 none).1,
   ((claim_C7_absent_timestamps.2 [Entity.changeset 1]).1).mpr (by decide)⟩

/-- Counterexample for C7 as stated: after the one-object stream
[Node#1 with absent timestamp], one object has been seen, yet both
timestamp sentinels are still observable — so "exactly when zero
objects were seen" fails. -/
theorem claim_C7_counterexample :
    (runInfo [Entity.object ObjKind.node 1 none none]).nodes = 1 ∧
    (runInfo [Entity.object ObjKind.node 1 none none]).first_timestamp = none ∧
    (runInfo [Entity.object ObjKind.node 1 none none]).last_timestamp = none := by
  refine ⟨rfl, rfl, rfl⟩

theorem crcUpdate_append (r : Nat) (a b : List Nat) :
    crcUpdate r (a ++ b) = crcUpdate (crcUpdate r a) b := by
  unfold crcUpdate
  simp [List.foldl_append]

theorem changeset_step_crc (h : InfoHandler) (id : Int) :
    (h.changeset_step id).crc32 =
      crcUpdate h.crc32 (encodeEntity (Entity.changeset id)) := by
  simp only [InfoHandler.changeset_step]
  split_ifs <;> rfl

theorem applyEntity_crc (h : InfoHandler) (e : Entity) :
    (h.applyEntity e).crc32 = crcUpdate h.crc32 (encodeEntity e) := by
  rcases e with id | ⟨kind, id, ts, loc⟩
  · exact changeset_step_crc h id
  · have hocrc := (osm_object_step_fields h kind id ts).2.2.2.2.2.2.2.2.2
    cases kind <;>
      simp only [InfoHandler.applyEntity, InfoHandler.node_step, InfoHandler.way_step,
        InfoHandler.relation_step, hocrc]

theorem fold_crc (entities : List Entity) :
    ∀ h : InfoHandler,
      (entities.foldl InfoHandler.applyEntity h).crc32 =
        crcUpdate h.crc32 (crcInput entities) := by
  induction entities with
  | nil => intro h; rfl
  | cons e rest ih =>
    intro h
    show (rest.foldl InfoHandler.applyEntity (h.applyEntity e)).crc32 = _
    rw [ih (h.applyEntity e), applyEntity_crc, crcInput, crcUpdate_append]

/-- C8 (amended): the checksum is a pure function of the canonically
encoded byte stream in stream order, and swapping two entities whose
canonical encodings differ (and have equal length, as any two changesets
do) changes that byte stream; the final 32-bit checksum value, however,
can coincide for specific such pairs. -/
theorem claim_C8_order_sensitivity :
    (∀ entities : List Entity,
      (runInfo entities).crc32 = crcUpdate crcInitial (crcInput entities)) ∧
    (∀ a b : Entity,
      encodeEntity a ≠ encodeEntity b →
      (encodeEntity a).length = (encodeEntity b).length →
      crcInput [a, b] ≠ crcInput [b, a]) := by
  constructor
  · intro entities
    exact fold_crc entities initialInfo
  · intro a b hne hlen heq
    apply hne
    have heq' : encodeEntity a ++ encodeEntity b = encodeEntity b ++ encodeEntity a := by
      have h1 : crcInput [a, b] = encodeEntity a ++ encodeEntity b := by
        simp [crcInput]
      have h2 : crcInput [b, a] = encodeEntity b ++ encodeEntity a := by
        simp [crcInput]
      rw [← h1, ← h2, heq]
    exact (List.append_inj heq' hlen).1

/-- Witness for C8: two distinct changesets feed different byte streams
in the two orders. -/
theorem claim_C8_order_sensitivity_witness :
    crcInput [Entity.changeset 1, Entity.changeset 2] ≠
      crcInput [Entity.changeset 2, Entity.changeset 1] :=
  claim_C8_order_sensitivity.2 (Entity.changeset 1) (Entity.changeset 2)
    (by decide) (by decide)

set_option maxRecDepth 100000 in
/-- Counterexample for C8 as stated: the changesets with ids 3681617473
and 4294967296 have different canonical encodings, yet folding them into
the checksum in either order ends in the same final checksum value —
the 32-bit accumulator is not injective on ordered streams. -/
theorem claim_C8_counterexample :
    encodeEntity (Entity.changeset 3681617473) ≠ encodeEntity (Entity.changeset 4294967296) ∧
    crcChecksum ((initialInfo.applyEntity (Entity.changeset 3681617473)).applyEntity
        (Entity.changeset 4294967296)).crc32 =
      crcChecksum ((initialInfo.applyEntity (Entity.changeset 4294967296)).applyEntity
        (Entity.changeset 3681617473)).crc32 := by
  exact ⟨by decide, rfl⟩

theorem string_append_ne (p t q : String)
    (h : List.isPrefixOf p.data q.data = false) : p ++ t ≠ q := by
  intro he
  have hdata : p.data ++ t.data = q.data := by
    rw [← String.data_append p t, he]
  have hpre : List.isPrefixOf p.data q.data = true := by
    rw [← hdata]
    exact List.isPrefixOf_iff_prefix.mpr (List.prefix_append p.data t.data)
  rw [h] at hpre
  exact Bool.false_ne_true hpre

theorem fileLines_headerOption (name : String) (m : FileMeta) :
    SimpleOutput.fileLines ("header.option." ++ name) m = [] := by
  unfold SimpleOutput.fileLines
  rw [if_neg (string_append_ne _ _ _ (by decide)),
    if_neg (string_append_ne _ _ _ (by decide)),
    if_neg (string_append_ne _ _ _ (by decide)),
    if_neg (string_append_ne _ _ _ (by decide))]
  rfl

theorem dataLines_headerOption (name : String) (info : InfoHandler) :
    SimpleOutput.dataLines ("header.option." ++ name) info = [] := by
  unfold SimpleOutput.dataLines
  rw [if_neg (string_append_ne _ _ _ (by decide)),
    if_neg (string_append_ne _ _ _ (by decide)),
    if_neg (string_append_ne _ _ _ (by decide)),
    if_neg (string_append_ne _ _ _ (by decide)),
    if_neg (string_append_ne _ _ _ (by decide)),
    if_neg (string_append_ne _ _ _ (by decide)),
    if_neg (string_append_ne _ _ _ (by decide)),
    if_neg (string_append_ne _ _ _ (by decide)),
    if_neg (string_append_ne _ _ _ (by decide)),
    if_neg (string_append_ne _ _ _ (by decide)),
    if_neg (string_append_ne _ _ _ (by decide)),
    if_neg (string_append_ne _ _ _ (by decide)),
    if_neg (string_append_ne _ _ _ (by decide)),
    if_neg (string_append_ne _ _ _ (by decide))]
  rfl

theorem headerOption_lines_length (g : String) (opts : List (String × String)) :
    (opts.filterMap (fun opt =>
      if g = "header.option." ++ opt.1 then some opt.2 else none)).length =
      opts.countP (fun opt => decide (g = "header.option." ++ opt.1)) := by
  induction opts with
  | nil => rfl
  | cons o rest ih =>
    by_cases hc : g = "header.option." ++ o.1
    · simp only [List.filterMap_cons, if_pos hc, List.length_cons, List.countP_cons, ih]
      simp [hc]
    · simp [List.filterMap_cons, List.countP_cons, hc, ih]

/-- C9 (amended): a single-value invocation with a validated key writes
zero or one line when the key is not of the form `header.option.<name>`;
for a key `header.option.<name>` it writes exactly one line per header
option whose full dotted name equals the key — with duplicate option
keys (which the header preserves in arrival order) this can exceed one
line. -/
theorem claim_C9_single_value_lines :
    (∀ (g : String) (m : FileMeta) (hdr : Header) (ext : Bool) (info : InfoHandler),
      (¬ ∃ name : String, g = "header.option." ++ name) →
      (SimpleOutput.runLines g m hdr ext info).length ≤ 1) ∧
    (∀ (name : String) (m : FileMeta) (hdr : Header) (ext : Bool) (info : InfoHandler),
      (SimpleOutput.runLines ("header.option." ++ name) m hdr ext info).length =
        hdr.options.countP (fun opt =>
          decide ("header.option." ++ name = "header.option." ++ opt.1))) := by
  constructor
  · intro g m hdr ext info hno
    have hz : hdr.options.countP (fun opt => decide (g = "header.option." ++ opt.1)) = 0 := by
      apply List.countP_eq_zero.mpr
      intro o ho
      simp only [decide_eq_true_eq]
      exact fun heq => hno ⟨o.1, heq⟩
    simp only [SimpleOutput.runLines, SimpleOutput.fileLines, SimpleOutput.headerLines,
      SimpleOutput.dataLines, List.length_append, headerOption_lines_length, hz,
      apply_ite (List.length (α := String)), List.length_singleton, List.length_nil]
    by_cases h1 : g = "file.name"
    · subst h1; cases ext <;> simp
    by_cases h2 : g = "file.format"
    · subst h2; cases ext <;> simp
    by_cases h3 : g = "file.compression"
    · subst h3; cases ext <;> simp
    by_cases h4 : g = "file.size"
    · subst h4; cases ext <;> simp
    by_cases h5 : g = "header.with_history"
    · subst h5; cases ext <;> simp
    by_cases h6 : g = "data.bbox"
    · subst h6; cases ext <;> simp
    by_cases h7 : g = "data.timestamp.first"
    · subst h7; cases ext <;> simp
    by_cases h8 : g = "data.timestamp.last"
    · subst h8; cases ext <;> simp
    by_cases h9 : g = "data.objects_ordered"
    · subst h9; cases ext <;> simp
    by_cases h10 : g = "data.multiple_versions"
    · subst h10; cases ext <;> simp
    by_cases h11 : g = "data.crc32"
    · subst h11; cases ext <;> simp
    by_cases h12 : g = "data.count.changesets"
    · subst h12; cases ext <;> simp
    by_cases h13 : g = "data.count.nodes"
    · subst h13; cases ext <;> simp
    by_cases h14 : g = "data.count.ways"
    · subst h14; cases ext <;> simp
    by_cases h15 : g = "data.count.relations"
    · subst h15; cases ext <;> simp
    by_cases h16 : g = "data.maxid.changesets"
    · subst h16; cases ext <;> simp
    by_cases h17 : g = "data.maxid.nodes"
    · subst h17; cases ext <;> simp
    by_cases h18 : g = "data.maxid.ways"
    · subst h18; cases ext <;> simp
    by_cases h19 : g = "data.maxid.relations"
    · subst h19; cases ext <;> simp
    cases ext <;>
      simp [h1, h2, h3, h4, h5, h6, h7, h8, h9, h10, h11, h12, h13, h14, h15,
        h16, h17, h18, h19]
  · intro name m hdr ext info
    have hw : ("header.option." ++ name) ≠ "header.with_history" :=
      string_append_ne _ _ _ (by decide)
    simp only [SimpleOutput.runLines, SimpleOutput.headerLines,
      fileLines_headerOption, dataLines_headerOption, if_neg hw,
      headerOption_lines_length, List.length_append]
    cases ext <;> simp

/-- Witness for C9: a non-header-option key prints at most one line. -/
theorem claim_C9_single_value_lines_witness :
    (SimpleOutput.runLines "file.name"
      { input_filename := "a.osm", format := "osm", compression := "none",
        filename := "a.osm", size := 7 }
      { with_history := false, options := [("generator", "x")] }
      false initialInfo).length ≤ 1 :=
  claim_C9_single_value_lines.1 "file.name"
    { input_filename := "a.osm", format := "osm", compression := "none",
      filename := "a.osm", size := 7 }
    { with_history := false, options := [("generator", "x")] }
    false initialInfo
    (fun ⟨name, hn⟩ => string_append_ne "header.option." name "file.name"
      (by decide) hn.symm)

/-- Counterexample for C9 as stated: the key `header.option.generator`
is in the fixed catalog (so it is validated), yet with a header whose
option list holds the key `generator` twice the single-value run prints
two lines, not zero or one. -/
theorem claim_C9_counterexample :
    validate_get "header.option.generator" false = Except.ok () ∧
    (SimpleOutput.runLines "header.option.generator"
      { input_filename := "input.osm", format := "osm", compression := "none",
        filename := "input.osm", size := 14 }
      { with_history := false, options := [("generator", "a"), ("generator", "b")] }
      false initialInfo).length = 2 := by
  exact ⟨rfl, rfl⟩

end Fileinfo
